import Mathlib

/-!
Verification development for the stock_forecast repository.

The definitions below are a shallow embedding of the Python source:

* `insertOrUpdatePrice` / `lookupPrice` embed `_insert_or_update_price`
  (src/app/api/router_import.py), i.e. the SQL
  `INSERT ... ON DUPLICATE KEY UPDATE` against `price_history`, whose
  unique key is `(universe_id, trade_date)`.  The table is modelled as an
  association list keyed by that pair; on a key conflict every value
  field and `source` are overwritten, exactly as the `UPDATE` clause does.
* `computeForecast` embeds `_compute_forecast_from_prices`
  (src/app/api/router_forecast.py).  Python float arithmetic is idealised
  as exact rational arithmetic (`ℚ`); the float expression `var ** 0.5`
  is idealised as the exact real square root, which is why the
  volatility-dependent outputs (`volOf`, `lowerPriceOf`, `upperPriceOf`)
  are split into separate `ℝ`-valued functions of the otherwise rational
  result record.  Dates are modelled as integer day numbers, so
  `timedelta(days=1)` is `+ 1`.
* `uploadBhavFile` embeds the `upload_bhav_file` handler together with
  `_create_bhav_upload_row` and `_update_bhav_upload_row`
  (src/app/api/router_import.py), and `runForecast` embeds the
  `run_forecast` handler (src/app/api/router_forecast.py).  The MySQL
  connection (opened with `autocommit=False`, see dependencies.py) is
  modelled by `Conn`: statements write to `current`, `commit` copies
  `current` into `committed`, `rollback` restores `current` from
  `committed`, and closing the connection without a commit discards the
  uncommitted `current` state (the server rolls back the open
  transaction on disconnect), so the durable state of a handler is the
  `committed` component when it closes.
* Rows already parsed out of the CSV / yfinance transports are modelled
  as records whose numeric fields carry the outcome of the Python
  `float(...)` / `int(...)` conversions (`Except String ℚ`), and reader
  or resolution-map failures are injected as `Except.error` values,
  matching the spec's view of transport as an external collaborator.
-/

/-- One row of the `price_history` table: the value fields of a PriceBar.
Mirrors the column list of `_insert_or_update_price`. -/
structure PriceRow where
  open_p : ℚ
  high_p : ℚ
  low_p : ℚ
  close_p : ℚ
  volume : Int
  source : String
  deriving DecidableEq

/-- The `price_history` table, keyed by `(universe_id, trade_date)`. -/
abbrev PriceStore := List ((Nat × Int) × PriceRow)

/-- Embedding of `_insert_or_update_price`: `INSERT ... ON DUPLICATE KEY
UPDATE` — if the key is present, all value fields and `source` are
overwritten; otherwise a new row is appended.  The function is total:
the source contains no validation and no error path. -/
def insertOrUpdatePrice (s : PriceStore) (k : Nat × Int) (r : PriceRow) : PriceStore :=
  match s with
  | [] => [(k, r)]
  | (k', r') :: rest =>
      if k' = k then (k, r) :: rest else (k', r') :: insertOrUpdatePrice rest k r

/-- Read one row by key (first match in the association list). -/
def lookupPrice (s : PriceStore) (k : Nat × Int) : Option PriceRow :=
  match s with
  | [] => none
  | (k', r) :: rest => if k' = k then some r else lookupPrice rest k

/-- One price bar as read back by `_fetch_recent_prices`
(`SELECT trade_date, close, volume ... ORDER BY trade_date` ascending
after the reverse); only `trade_date` and `close` are used by the
forecast computation. -/
structure PriceBar where
  trade_date : Int
  close : ℚ
  deriving DecidableEq

/-- Failure of the forecast computation.  On an empty input the Python
function evaluates `rows[-1]` and raises (the spec's
`InsufficientDataError`); this is the only way it can fail. -/
inductive ForecastError where
  | insufficientData
  deriving DecidableEq

/-- The `details` dictionary of the general (non-degenerate) branch of
`_compute_forecast_from_prices`.  `varq` is the sample variance computed
in the `vol_n > 1` branch (`0` otherwise), kept as an exact rational;
the code's volatility is its square root (see `volOf`). -/
structure ForecastDetails where
  ma_short : ℚ
  ma_long : ℚ
  drift : ℚ
  varq : ℚ
  vol_n : Nat
  deriving DecidableEq

/-- The result dictionary of `_compute_forecast_from_prices`, minus the
two volatility-scaled band prices, which are real-valued and provided by
`lowerPriceOf` / `upperPriceOf`.  `details` is `none` in the degenerate
branch (the code returns an empty dict there). -/
structure Forecast where
  as_of_date : Int
  next_date : Int
  last_close : ℚ
  forecast_return : ℚ
  forecast_price : ℚ
  trend_flag : String
  details : Option ForecastDetails
  deriving DecidableEq

/-- Degenerate branch of `_compute_forecast_from_prices`
(`len(rows) < 5`): flat forecast from the last bar. -/
def flatForecast (last : PriceBar) : Forecast :=
  { as_of_date := last.trade_date
    next_date := last.trade_date + 1
    last_close := last.close
    forecast_return := 0
    forecast_price := last.close
    trend_flag := "FLAT"
    details := none }

/-- Daily simple returns: for `i = 1..n-1`,
`(close[i] - close[i-1]) / close[i-1]`, with `0` when the previous close
is zero (the guarded branch of the source loop). -/
def returnsOf (closes : List ℚ) : List ℚ :=
  List.zipWith (fun prev cur => if prev ≠ 0 then (cur - prev) / prev else 0)
    closes closes.tail

/-- Last `n` elements, mirroring Python's `l[-n:]` for `n ≥ 1` (every
use in the source has `n ≥ 1`). -/
def lastN (n : Nat) (l : List α) : List α :=
  l.drop (l.length - n)

/-- General branch of `_compute_forecast_from_prices` (`len(rows) >= 5`),
translated line by line; the single source `if/elif/else` computing the
pair `(forecast_return, trend_flag)` is written as two `if` chains with
identical conditions. -/
def generalForecast (rows : List PriceBar) (last : PriceBar) : Forecast :=
  let closes := rows.map (fun r => r.close)
  let returns := returnsOf closes
  let last_close := last.close
  let as_of_date := last.trade_date
  let next_date := as_of_date + 1
  let short_n := min 5 closes.length
  let long_n := min 20 closes.length
  let drift_n := min 10 returns.length
  let vol_n := min 20 returns.length
  let ma_short := (lastN short_n closes).sum / (short_n : ℚ)
  let ma_long := (lastN long_n closes).sum / (long_n : ℚ)
  let drift := if drift_n > 0 then (lastN drift_n returns).sum / (drift_n : ℚ) else 0
  let varq :=
    if vol_n > 1 then
      let last_rets := lastN vol_n returns
      let mean_r := last_rets.sum / (vol_n : ℚ)
      (last_rets.map (fun r => (r - mean_r) ^ 2)).sum / ((vol_n : ℚ) - 1)
    else 0
  let trend := ma_short - ma_long
  let forecast_return :=
    if trend > 0 ∧ drift > 0 then min (drift * (6 / 5)) (1 / 100)
    else if trend < 0 ∧ drift < 0 then -(min (|drift| * (6 / 5)) (1 / 100))
    else 0
  let trend_flag :=
    if trend > 0 ∧ drift > 0 then "UP"
    else if trend < 0 ∧ drift < 0 then "DOWN"
    else "FLAT"
  { as_of_date := as_of_date
    next_date := next_date
    last_close := last_close
    forecast_return := forecast_return
    forecast_price := last_close * (1 + forecast_return)
    trend_flag := trend_flag
    details := some { ma_short := ma_short, ma_long := ma_long, drift := drift
                      varq := varq, vol_n := vol_n } }

/-- Embedding of `_compute_forecast_from_prices`.  The only failure of
the source is the `rows[-1]` access on an empty list, modelled as the
`insufficientData` error; otherwise the degenerate or the general branch
produces a result. -/
def computeForecast (rows : List PriceBar) : Except ForecastError Forecast :=
  match rows.getLast? with
  | none => .error .insufficientData
  | some last =>
      if rows.length < 5 then .ok (flatForecast last)
      else .ok (generalForecast rows last)

/-- The code's volatility: `sqrt var` in the `vol_n > 1` branch, `0`
otherwise (and conceptually `0` for the degenerate branch, which sets
both band prices to the last close). -/
noncomputable def volOf (f : Forecast) : ℝ :=
  match f.details with
  | none => 0
  | some d => if d.vol_n > 1 then Real.sqrt (d.varq : ℝ) else 0

/-- `lower_price = forecast_price * (1 - vol)` when `vol > 0`, else the
forecast price itself (source line computing `lower_price`). -/
noncomputable def lowerPriceOf (f : Forecast) : ℝ :=
  if volOf f > 0 then (f.forecast_price : ℝ) * (1 - volOf f)
  else (f.forecast_price : ℝ)

/-- `upper_price = forecast_price * (1 + vol)` when `vol > 0`, else the
forecast price itself (source line computing `upper_price`). -/
noncomputable def upperPriceOf (f : Forecast) : ℝ :=
  if volOf f > 0 then (f.forecast_price : ℝ) * (1 + volOf f)
  else (f.forecast_price : ℝ)

/-- Decidable equality for parse and fetch outcomes. -/
instance exceptDecEq [DecidableEq ε] [DecidableEq α] : DecidableEq (Except ε α) := fun a b =>
  match a, b with
  | .error e, .error e' => if h : e = e' then isTrue (by rw [h]) else isFalse (by simp [h])
  | .ok x, .ok y => if h : x = y then isTrue (by rw [h]) else isFalse (by simp [h])
  | .error _, .ok _ => isFalse (by simp)
  | .ok _, .error _ => isFalse (by simp)

/-- One row of the `bhav_upload` table.  `_create_bhav_upload_row`
inserts it with status `PENDING` and no counts; `_update_bhav_upload_row`
later sets status, counts and error message. -/
structure BhavUpload where
  file_name : String
  trade_date : Int
  status : String
  records_total : Option Nat
  records_loaded : Option Nat
  error_message : Option String
  deriving DecidableEq

/-- One row of the `forecast_run` table (`run_time` omitted: wall-clock
time plays no role in any claim).  `_create_forecast_run` inserts it
with status `SUCCESS` optimistically. -/
structure ForecastRunRow where
  description : Option String
  status : String
  error_message : Option String
  deriving DecidableEq

/-- One row of the `forecast_result` table.  The individual columns the
source inserts are exactly the fields of `forecast` (plus the band
prices `lowerPriceOf forecast` / `upperPriceOf forecast`). -/
structure ForecastResultRow where
  run_id : Nat
  universe_id : Nat
  forecast : Forecast
  deriving DecidableEq

/-- The tables of the `stock_forecast` database that the embedded
handlers touch. -/
structure DBState where
  prices : PriceStore
  bhavUploads : List (Nat × BhavUpload)
  runs : List (Nat × ForecastRunRow)
  results : List ForecastResultRow
  deriving DecidableEq

/-- A MySQL connection with `autocommit=False` (dependencies.py):
statements act on `current`; `commit` publishes, `rollback` restores,
and closing without a commit discards `current` (the server rolls the
open transaction back on disconnect). -/
structure Conn where
  committed : DBState
  current : DBState
  deriving DecidableEq

/-- A connection freshly obtained from `get_db_connection`. -/
def freshConn (s : DBState) : Conn := { committed := s, current := s }

/-- `conn.commit()`. -/
def commitConn (c : Conn) : Conn := { committed := c.current, current := c.current }

/-- `conn.rollback()`. -/
def rollbackConn (c : Conn) : Conn := { committed := c.committed, current := c.committed }

/-- `conn.close()` without a preceding commit: the durable state is the
committed component; pending writes are lost. -/
def closeConn (c : Conn) : DBState := c.committed

/-- AUTO_INCREMENT id for a new row: one more than the largest id in the
table (fresh by construction). -/
def freshId (l : List (Nat × α)) : Nat :=
  (l.map Prod.fst).foldr max 0 + 1

/-- Association lookup by id (first match). -/
def lookupId (l : List (Nat × α)) (i : Nat) : Option α :=
  match l with
  | [] => none
  | (j, a) :: rest => if j = i then some a else lookupId rest i

/-- `_update_bhav_upload_row`: `UPDATE bhav_upload SET ... WHERE id = %s`.
A row with a matching id is overwritten; if no row matches (e.g. the
insert was rolled back), the statement changes nothing. -/
def updateBhavUpload (s : DBState) (i : Nat) (st : String)
    (tot ld : Nat) (err : Option String) : DBState :=
  { s with bhavUploads := s.bhavUploads.map (fun p =>
      if p.1 = i then
        (p.1, { p.2 with status := st, records_total := some tot,
                         records_loaded := some ld, error_message := err })
      else p) }

/-- `_update_forecast_run_status`: `UPDATE forecast_run SET status, error_message WHERE id`. -/
def updateRunStatus (s : DBState) (i : Nat) (st : String) (err : Option String) : DBState :=
  { s with runs := s.runs.map (fun p =>
      if p.1 = i then (p.1, { p.2 with status := st, error_message := err }) else p) }

/-- Python's `str.strip()` on a string (leading and trailing whitespace
removed), written over the character list so that it evaluates on
concrete inputs. -/
def pyStrip (s : String) : String :=
  String.mk (((s.toList.dropWhile Char.isWhitespace).reverse.dropWhile Char.isWhitespace).reverse)

/-- `bse_map.get(fin_id)`: first-match lookup in the resolution mapping
`FinInstrmId -> universe_id` built by `_fetch_universe_bse_map`. -/
def lookupCode (m : List (String × Nat)) (c : String) : Option Nat :=
  match m with
  | [] => none
  | (s, i) :: rest => if s = c then some i else lookupCode rest c

/-- One CSV row of a bhav file, reduced to the fields the handler reads.
Each numeric field carries the outcome of the corresponding Python
conversion (`float(row.get(...))`, `int(float(row.get(...)))`): `ok` a
value, or `error` the exception text of a malformed literal. -/
structure BhavRow where
  finInstrmId : String
  opn : Except String ℚ
  hig : Except String ℚ
  low : Except String ℚ
  cls : Except String ℚ
  vol : Except String Int
  deriving DecidableEq

/-- Loop state of `upload_bhav_file`: the connection's pending table
state plus the `total` / `loaded` counters and the message list. -/
structure BhavAcc where
  cur : DBState
  total : Nat
  loaded : Nat
  msgs : List String
  deriving DecidableEq

/-- Body of the per-row loop of `upload_bhav_file`: count the row, skip
rows with a blank or unresolvable `FinInstrmId` (Python's
`if not universe_id` also treats a mapped id of `0` as unresolved),
upsert and count `loaded` when all numeric fields parse, and record a
row-level message (without aborting) when one of them fails. -/
def bhavStep (bmap : List (String × Nat)) (tdate : Int) (acc : BhavAcc) (row : BhavRow) :
    BhavAcc :=
  let acc := { acc with total := acc.total + 1 }
  let fid := pyStrip row.finInstrmId
  if fid = "" then acc
  else
    match lookupCode bmap fid with
    | none => acc
    | some uid =>
        if uid = 0 then acc
        else
          match row.opn, row.hig, row.low, row.cls, row.vol with
          | .ok o, .ok h, .ok l, .ok c, .ok v =>
              let r : PriceRow :=
                { open_p := o, high_p := h, low_p := l, close_p := c,
                  volume := v, source := "BSE_BHAV" }
              let cur' := { acc.cur with prices := insertOrUpdatePrice acc.cur.prices (uid, tdate) r }
              { acc with cur := cur', loaded := acc.loaded + 1 }
          | _, _, _, _, _ =>
              { acc with msgs := acc.msgs ++ ["Row error FinInstrmId=" ++ row.finInstrmId] }

/-- The `for row in reader` loop.  An entry `.error e` models the CSV
reader itself raising mid-file (an adapter-level failure): the loop is
abandoned with the counters accumulated so far and the exception escapes
to the handler's `except` block. -/
def bhavLoop (bmap : List (String × Nat)) (tdate : Int) :
    List (Except String BhavRow) → BhavAcc → Except (String × BhavAcc) BhavAcc
  | [], acc => .ok acc
  | .error e :: _, acc => .error (e, acc)
  | .ok row :: rest, acc => bhavLoop bmap tdate rest (bhavStep bmap tdate acc row)

/-- What the handler reports for the batch: the arguments it passes to
`_update_bhav_upload_row` and renders into the response messages. -/
structure BhavReport where
  status : String
  total : Nat
  loaded : Nat
  error_message : Option String
  deriving DecidableEq

/-- Embedding of the `upload_bhav_file` handler.  `mapR` is the outcome
of `_fetch_universe_bse_map` (an `error` is an adapter-level failure
caught by the handler's `except`), `entries` the CSV reader stream.
Control flow of the source: insert the PENDING `bhav_upload` row; inside
`try`, load the map, run the loop, and `commit`; on any exception,
`rollback`; then issue the status `UPDATE`; finally `close()` — with no
commit after the `UPDATE`. -/
def uploadBhavFile (conn0 : Conn) (fileName : String) (tdate : Int)
    (mapR : Except String (List (String × Nat)))
    (entries : List (Except String BhavRow)) : DBState × BhavReport :=
  let uploadId := freshId conn0.current.bhavUploads
  let conn1 : Conn :=
    { conn0 with current := { conn0.current with bhavUploads :=
        conn0.current.bhavUploads ++
          [(uploadId, { file_name := fileName, trade_date := tdate, status := "PENDING",
                        records_total := none, records_loaded := none,
                        error_message := none })] } }
  match mapR with
  | .error e =>
      let conn2 := rollbackConn conn1
      let conn3 := { conn2 with current := updateBhavUpload conn2.current uploadId "FAILED" 0 0 (some e) }
      (closeConn conn3, { status := "FAILED", total := 0, loaded := 0, error_message := some e })
  | .ok bmap =>
      match bhavLoop bmap tdate entries { cur := conn1.current, total := 0, loaded := 0, msgs := [] } with
      | .ok acc =>
          let conn2 := commitConn { conn1 with current := acc.cur }
          let upd2 := updateBhavUpload conn2.current uploadId "SUCCESS" acc.total acc.loaded none
          let conn3 := { conn2 with current := upd2 }
          (closeConn conn3,
           { status := "SUCCESS", total := acc.total, loaded := acc.loaded, error_message := none })
      | .error (e, acc) =>
          let conn2 := rollbackConn { conn1 with current := acc.cur }
          let upd2 := updateBhavUpload conn2.current uploadId "FAILED" acc.total acc.loaded (some e)
          let conn3 := { conn2 with current := upd2 }
          (closeConn conn3,
           { status := "FAILED", total := acc.total, loaded := acc.loaded, error_message := some e })

/-- One active universe row together with the outcome of
`_fetch_recent_prices` for it: either its recent bars (ascending), or a
storage fault raised while processing that instrument. -/
structure UniverseInst where
  id : Nat
  fetched : Except String (List PriceBar)
  deriving DecidableEq

/-- The per-instrument loop of `run_forecast`: a fetch fault aborts the
loop (the exception escapes to the handler), an instrument with no bars
is skipped, and otherwise the engine output is inserted as a
`forecast_result` row.  A failure of the engine itself would also escape
(it cannot occur for a non-empty series, see `computeForecast`). -/
def forecastLoop (rid : Nat) :
    List UniverseInst → DBState → Except (String × DBState) DBState
  | [], cur => .ok cur
  | inst :: rest, cur =>
      match inst.fetched with
      | .error e => .error (e, cur)
      | .ok prices =>
          if prices.isEmpty then forecastLoop rid rest cur
          else
            match computeForecast prices with
            | .error _ => .error ("insufficient data", cur)
            | .ok f =>
                forecastLoop rid rest
                  { cur with results := cur.results ++ [{ run_id := rid, universe_id := inst.id, forecast := f }] }

/-- Embedding of the `run_forecast` handler: insert the run row (status
`SUCCESS` optimistically), loop over the active universe; on success
`commit` and close; on an exception update the run to `FAILED` with the
captured text, `commit`, re-raise, and close.  Both paths commit before
closing, so the durable state is the current state at that commit. -/
def runForecast (conn0 : Conn) (desc : Option String) (insts : List UniverseInst) : DBState :=
  let rid := freshId conn0.current.runs
  let conn1 : Conn :=
    { conn0 with current := { conn0.current with runs :=
        conn0.current.runs ++ [(rid, { description := desc, status := "SUCCESS", error_message := none })] } }
  match forecastLoop rid insts conn1.current with
  | .ok cur2 => closeConn (commitConn { conn1 with current := cur2 })
  | .error (e, cur2) =>
      closeConn (commitConn { conn1 with current := updateRunStatus cur2 rid "FAILED" (some e) })

/-- The `forecast_result` rows contributed by a list of fault-free
instruments, in traversal order: one row per instrument with a non-empty
fetched series. -/
def resultRowsOf (rid : Nat) (insts : List UniverseInst) : List ForecastResultRow :=
  insts.flatMap (fun inst =>
    match inst.fetched with
    | .error _ => []
    | .ok prices =>
        if prices.isEmpty then []
        else
          match computeForecast prices with
          | .error _ => []
          | .ok f => [{ run_id := rid, universe_id := inst.id, forecast := f }])

/-- Reading back the key just upserted returns exactly the upserted row,
whether the key was fresh or already present. -/
theorem lookupPrice_insertOrUpdatePrice (s : PriceStore) (k : Nat × Int) (r : PriceRow) :
    lookupPrice (insertOrUpdatePrice s k r) k = some r := by
  induction s with
  | nil => simp [insertOrUpdatePrice, lookupPrice]
  | cons p rest ih =>
      obtain ⟨k', r'⟩ := p
      by_cases h : k' = k
      · simp [insertOrUpdatePrice, lookupPrice, h]
      · simp [insertOrUpdatePrice, lookupPrice, h, ih]

/-- Upserting the same key and values twice produces the same table as
doing it once. -/
theorem insertOrUpdatePrice_idem (s : PriceStore) (k : Nat × Int) (r : PriceRow) :
    insertOrUpdatePrice (insertOrUpdatePrice s k r) k r = insertOrUpdatePrice s k r := by
  induction s with
  | nil => simp [insertOrUpdatePrice]
  | cons p rest ih =>
      obtain ⟨k', r'⟩ := p
      by_cases h : k' = k
      · simp [insertOrUpdatePrice, h]
      · simp [insertOrUpdatePrice, h, ih]

/-- C1: for every key `(universe_id, trade_date)`, applying the same
upsert twice leaves the price store in the same state as applying it
once, and upserting values from source A and then different values from
source B for the same key leaves exactly B's field values (including
`source = B`) under that key; the upsert is a total function, so no
error is raised on the key conflict. -/
theorem upsert_idempotent_and_last_write_wins (s : PriceStore) (k : Nat × Int)
    (rA rB : PriceRow) :
    insertOrUpdatePrice (insertOrUpdatePrice s k rB) k rB = insertOrUpdatePrice s k rB ∧
    lookupPrice (insertOrUpdatePrice (insertOrUpdatePrice s k rA) k rB) k = some rB :=
  ⟨insertOrUpdatePrice_idem s k rB,
   lookupPrice_insertOrUpdatePrice (insertOrUpdatePrice s k rA) k rB⟩

/-- C2 counterexample: the upsert embedded from `_insert_or_update_price`
contains no validation; called with `volume = -1` it does not fail with
any error but writes the price row, volume included, refuting the claim
that a negative-volume call fails with `ValidationError` and writes no
row. -/
theorem upsert_negative_volume_accepted :
    insertOrUpdatePrice [] (1, 0)
      { open_p := 10, high_p := 11, low_p := 9, close_p := 10, volume := -1, source := "BSE_BHAV" } =
      [((1, 0),
        { open_p := 10, high_p := 11, low_p := 9, close_p := 10, volume := -1, source := "BSE_BHAV" })] :=
  rfl

/-- C2 amended: the price store upsert performs no volume validation at
all: every call succeeds (the operation is total, with no error path),
and even a call with negative volume writes its row unchanged, readable
back under its key. -/
theorem upsert_accepts_negative_volume (s : PriceStore) (k : Nat × Int)
    (o h l c : ℚ) (v : Int) (src : String) (_hv : v < 0) :
    lookupPrice
      (insertOrUpdatePrice s k
        { open_p := o, high_p := h, low_p := l, close_p := c, volume := v, source := src }) k =
      some { open_p := o, high_p := h, low_p := l, close_p := c, volume := v, source := src } :=
  lookupPrice_insertOrUpdatePrice s k _

/-- Witness for the C2 amended theorem at volume `-1`. -/
theorem upsert_accepts_negative_volume_witness :
    (-1 : Int) < 0 ∧
    lookupPrice
      (insertOrUpdatePrice [] (2, 5)
        { open_p := 4, high_p := 6, low_p := 3, close_p := 5, volume := -1, source := "YFINANCE" }) (2, 5) =
      some { open_p := 4, high_p := 6, low_p := 3, close_p := 5, volume := -1, source := "YFINANCE" } :=
  ⟨by decide, upsert_accepts_negative_volume [] (2, 5) 4 6 3 5 (-1) "YFINANCE" (by decide)⟩

/-- A non-empty bar series always yields a forecast value. -/
theorem computeForecast_ok_of_ne_nil {rows : List PriceBar} (h : rows ≠ []) :
    ∃ f, computeForecast rows = .ok f := by
  rcases hl : rows.getLast? with _ | last
  · exact absurd (List.getLast?_eq_none_iff.mp hl) h
  · unfold computeForecast
    rw [hl]
    by_cases h5 : rows.length < 5 <;> simp [h5]

/-- C7: the forecast computation fails (modelling the `rows[-1]`
IndexError, the spec's `InsufficientDataError`) exactly on the empty bar
sequence, and returns a forecast value for every non-empty sequence. -/
theorem compute_forecast_insufficient_data_dichotomy :
    computeForecast [] = .error .insufficientData ∧
    ∀ rows : List PriceBar, rows ≠ [] → ∃ f, computeForecast rows = .ok f :=
  ⟨rfl, fun _ h => computeForecast_ok_of_ne_nil h⟩

/-- Witness for C7 on the one-bar series. -/
theorem compute_forecast_insufficient_data_dichotomy_witness :
    ([(⟨0, 100⟩ : PriceBar)] ≠ []) ∧ ∃ f, computeForecast [⟨0, 100⟩] = .ok f :=
  ⟨by simp, compute_forecast_insufficient_data_dichotomy.2 _ (by simp)⟩

/-- C3: with at least one and fewer than five bars the computation
returns the flat forecast built from the last bar: zero return, all
three prices equal to the last close, flag `FLAT`, `as_of_date` the last
bar's date and `next_date` one calendar day later. -/
theorem flat_forecast_when_below_five (rows : List PriceBar) (last : PriceBar)
    (hl : rows.getLast? = some last) (h5 : rows.length < 5) :
    computeForecast rows = .ok (flatForecast last) ∧
    (flatForecast last).forecast_return = 0 ∧
    (flatForecast last).forecast_price = last.close ∧
    (flatForecast last).last_close = last.close ∧
    lowerPriceOf (flatForecast last) = (last.close : ℝ) ∧
    upperPriceOf (flatForecast last) = (last.close : ℝ) ∧
    (flatForecast last).trend_flag = "FLAT" ∧
    (flatForecast last).as_of_date = last.trade_date ∧
    (flatForecast last).next_date = last.trade_date + 1 := by
  refine ⟨?_, rfl, rfl, rfl, ?_, ?_, rfl, rfl, rfl⟩
  · simp [computeForecast, hl, h5]
  · simp [lowerPriceOf, volOf, flatForecast]
  · simp [upperPriceOf, volOf, flatForecast]

/-- Witness for C3: the claim's single-bar scenario `(d, close=100)`
with `d = 0` yields `forecast_price = 100` and `next_date = d + 1`. -/
theorem flat_forecast_when_below_five_witness :
    (([(⟨0, 100⟩ : PriceBar)].getLast? = some ⟨0, 100⟩) ∧ ([(⟨0, 100⟩ : PriceBar)].length < 5)) ∧
    computeForecast [⟨0, 100⟩] = .ok (flatForecast ⟨0, 100⟩) ∧
    (flatForecast (⟨0, 100⟩ : PriceBar)).forecast_price = 100 ∧
    (flatForecast (⟨0, 100⟩ : PriceBar)).next_date = 0 + 1 := by
  have h := flat_forecast_when_below_five [⟨0, 100⟩] ⟨0, 100⟩ (by simp) (by simp)
  exact ⟨⟨by simp, by simp⟩, h.1, h.2.2.1, h.2.2.2.2.2.2.2.2⟩

/-- Case analysis for a successful forecast: the result is the flat or
the general branch applied to the last bar. -/
theorem computeForecast_cases {rows : List PriceBar} {f : Forecast}
    (h : computeForecast rows = .ok f) :
    ∃ last, rows.getLast? = some last ∧
      (f = flatForecast last ∨ f = generalForecast rows last) := by
  unfold computeForecast at h
  rcases hl : rows.getLast? with _ | last <;> rw [hl] at h
  · exact absurd h (by simp)
  · refine ⟨last, rfl, ?_⟩
    by_cases h5 : rows.length < 5
    · simp only [h5, if_true, Except.ok.injEq] at h
      exact .inl h.symm
    · simp only [h5, if_false, Except.ok.injEq] at h
      exact .inr h.symm

/-- The capped-return rule of the source, in isolation: whatever the
trend signal and drift are, the chosen return has magnitude at most
`1/100`. -/
theorem abs_capped_return_le (t d : ℚ) :
    |if t > 0 ∧ d > 0 then min (d * (6 / 5)) (1 / 100)
      else if t < 0 ∧ d < 0 then -(min (|d| * (6 / 5)) (1 / 100))
      else 0| ≤ 1 / 100 := by
  split_ifs with h1 h2
  · rw [abs_of_pos (lt_min (by nlinarith [h1.2]) (by norm_num))]
    exact min_le_right _ _
  · rw [abs_neg, abs_of_nonneg (le_min (by positivity) (by norm_num))]
    exact min_le_right _ _
  · norm_num

/-- The general branch observes the 1% return cap. -/
theorem abs_generalForecast_return_le (rows : List PriceBar) (last : PriceBar) :
    |(generalForecast rows last).forecast_return| ≤ 1 / 100 := by
  simp only [generalForecast]
  exact abs_capped_return_le _ _

/-- Every successful forecast observes the 1% return cap. -/
theorem abs_forecastReturn_le {rows : List PriceBar} {f : Forecast}
    (h : computeForecast rows = .ok f) : |f.forecast_return| ≤ 1 / 100 := by
  obtain ⟨last, _, hf | hf⟩ := computeForecast_cases h <;> subst hf
  · norm_num [flatForecast]
  · exact abs_generalForecast_return_le rows last

/-- C4: for every bar sequence on which the forecast computation
succeeds (every sequence with at least one bar), the forecast return
satisfies `|forecast_return| <= 0.01`. -/
theorem forecast_return_capped (rows : List PriceBar) (f : Forecast)
    (h : computeForecast rows = .ok f) : |f.forecast_return| ≤ 1 / 100 :=
  abs_forecastReturn_le h

/-- Witness for C4 on the one-bar series. -/
theorem forecast_return_capped_witness :
    computeForecast [⟨0, 100⟩] = .ok (flatForecast ⟨0, 100⟩) ∧
    |(flatForecast (⟨0, 100⟩ : PriceBar)).forecast_return| ≤ 1 / 100 :=
  ⟨rfl, forecast_return_capped [⟨0, 100⟩] (flatForecast ⟨0, 100⟩) rfl⟩

/-- The computed volatility is never negative: it is a square root or a
literal zero. -/
theorem volOf_nonneg (f : Forecast) : 0 ≤ volOf f := by
  cases hd : f.details with
  | none => simp [volOf, hd]
  | some d =>
      simp only [volOf, hd]
      split_ifs
      · exact Real.sqrt_nonneg _
      · exact le_rfl

/-- Every successful forecast prices the next day at
`last_close * (1 + forecast_return)` (in the flat branch the return is
zero, so this is the last close). -/
theorem forecastPrice_eq {rows : List PriceBar} {f : Forecast}
    (h : computeForecast rows = .ok f) :
    f.forecast_price = f.last_close * (1 + f.forecast_return) := by
  obtain ⟨last, _, hf | hf⟩ := computeForecast_cases h <;> subst hf
  · simp [flatForecast]
  · rfl

/-- C5 amended: the computed volatility is always nonnegative, and
whenever the last close (equivalently the forecast price, since the
return is capped at 1%) is nonnegative, the band prices satisfy
`lower_price <= forecast_price <= upper_price`; when the volatility is
zero, both band prices equal the forecast price. -/
theorem band_ordering_of_nonneg_close (rows : List PriceBar) (f : Forecast)
    (h : computeForecast rows = .ok f) (hlc : 0 ≤ f.last_close) :
    0 ≤ volOf f ∧
    lowerPriceOf f ≤ (f.forecast_price : ℝ) ∧
    (f.forecast_price : ℝ) ≤ upperPriceOf f ∧
    (volOf f = 0 →
      lowerPriceOf f = (f.forecast_price : ℝ) ∧ upperPriceOf f = (f.forecast_price : ℝ)) := by
  have hv : 0 ≤ volOf f := volOf_nonneg f
  have hfr := abs_forecastReturn_le h
  have hfp : 0 ≤ f.forecast_price := by
    rw [forecastPrice_eq h]
    have h1 : -(1 / 100 : ℚ) ≤ f.forecast_return := (abs_le.mp hfr).1
    nlinarith
  have hfpR : (0 : ℝ) ≤ (f.forecast_price : ℝ) := by exact_mod_cast hfp
  refine ⟨hv, ?_, ?_, ?_⟩
  · rw [lowerPriceOf]
    split_ifs with hpos
    · nlinarith [mul_nonneg hfpR hv]
    · exact le_rfl
  · rw [upperPriceOf]
    split_ifs with hpos
    · nlinarith [mul_nonneg hfpR hv]
    · exact le_rfl
  · intro h0
    rw [lowerPriceOf, upperPriceOf, h0]
    simp

/-- Five constant-price bars: a concrete series with nonnegative closes
and zero volatility. -/
def constBars : List PriceBar :=
  [⟨0, 10⟩, ⟨1, 10⟩, ⟨2, 10⟩, ⟨3, 10⟩, ⟨4, 10⟩]

/-- Witness for the C5 amended theorem on the constant series. -/
theorem band_ordering_of_nonneg_close_witness :
    (computeForecast constBars = .ok (generalForecast constBars ⟨4, 10⟩) ∧
     0 ≤ (generalForecast constBars ⟨4, 10⟩).last_close) ∧
    (0 ≤ volOf (generalForecast constBars ⟨4, 10⟩) ∧
     lowerPriceOf (generalForecast constBars ⟨4, 10⟩) ≤
       ((generalForecast constBars ⟨4, 10⟩).forecast_price : ℝ) ∧
     ((generalForecast constBars ⟨4, 10⟩).forecast_price : ℝ) ≤
       upperPriceOf (generalForecast constBars ⟨4, 10⟩) ∧
     (volOf (generalForecast constBars ⟨4, 10⟩) = 0 →
       lowerPriceOf (generalForecast constBars ⟨4, 10⟩) =
         ((generalForecast constBars ⟨4, 10⟩).forecast_price : ℝ) ∧
       upperPriceOf (generalForecast constBars ⟨4, 10⟩) =
         ((generalForecast constBars ⟨4, 10⟩).forecast_price : ℝ))) :=
  ⟨⟨rfl, by norm_num [generalForecast]⟩,
   band_ordering_of_nonneg_close constBars _ rfl (by norm_num [generalForecast])⟩

/-- A five-bar series with negative closes (closes
`-1, -1.1, -1.21, -1.331, -0.9317`, i.e. three `+10%` returns followed
by one `-30%` return). -/
def cexBars : List PriceBar :=
  [⟨0, -1⟩, ⟨1, -11/10⟩, ⟨2, -121/100⟩, ⟨3, -1331/1000⟩, ⟨4, -9317/10000⟩]

/-- C5 counterexample: on `cexBars` the computed volatility is `1/5 >= 0`
but the forecast price (a negative number) is strictly below the lower
band price, refuting `lower_price <= forecast_price` as an unconditional
consequence of `volatility >= 0`. -/
theorem band_ordering_fails_for_negative_close :
    ∃ f, computeForecast cexBars = .ok f ∧ 0 ≤ volOf f ∧
      (f.forecast_price : ℝ) < lowerPriceOf f := by
  refine ⟨generalForecast cexBars ⟨4, -9317/10000⟩, rfl, volOf_nonneg _, ?_⟩
  have he : generalForecast cexBars ⟨4, -9317/10000⟩ =
      { as_of_date := 4, next_date := 5, last_close := -9317/10000,
        forecast_return := 0, forecast_price := -9317/10000,
        trend_flag := "FLAT",
        details := some { ma_short := -55727/50000, ma_long := -55727/50000,
                          drift := 0, varq := 1/25, vol_n := 4 } } := by
    norm_num [generalForecast, cexBars, returnsOf, lastN]
  rw [he]
  have hv : volOf
      { as_of_date := 4, next_date := 5, last_close := -9317/10000,
        forecast_return := 0, forecast_price := -9317/10000,
        trend_flag := "FLAT",
        details := some { ma_short := -55727/50000, ma_long := -55727/50000,
                          drift := 0, varq := 1/25, vol_n := 4 } } = 1 / 5 := by
    simp only [volOf]
    rw [if_pos (by norm_num)]
    rw [show ((1/25 : ℚ) : ℝ) = (1/5 : ℝ)^2 by norm_num,
       Real.sqrt_sq (by norm_num : (0:ℝ) ≤ 1/5)]
  rw [lowerPriceOf, hv]
  norm_num

/-- The spec's ascending five-bar scenario: closes
`10, 10.5, 11, 11.2, 11.5` on days `d-4 .. d` (taking `d = 4`). -/
def scenBars : List PriceBar :=
  [⟨0, 10⟩, ⟨1, 21/2⟩, ⟨2, 11⟩, ⟨3, 56/5⟩, ⟨4, 23/2⟩]

/-- Full evaluation of the general branch on the scenario series: with
only five bars, `ma_long` clamps to the same five closes as `ma_short`
(both `10.84`), so the trend signal is zero and the `FLAT` branch is
taken despite the positive drift `527/14784 ≈ 0.0357`. -/
theorem scenBars_eval :
    generalForecast scenBars ⟨4, 23/2⟩ =
      { as_of_date := 4, next_date := 5, last_close := 23/2,
        forecast_return := 0, forecast_price := 23/2,
        trend_flag := "FLAT",
        details := some { ma_short := 271/25, ma_long := 271/25,
                          drift := 527/14784, varq := 333721/1366041600, vol_n := 4 } } := by
  norm_num [generalForecast, scenBars, returnsOf, lastN]

/-- C6 counterexample: on the scenario series the code does not produce
`trend_flag = UP`, `forecast_return = 0.01`, `forecast_price = 11.615`;
it produces none of those three values. -/
theorem scenario_not_up :
    ∃ f, computeForecast scenBars = .ok f ∧
      f.trend_flag ≠ "UP" ∧ f.forecast_return ≠ 1 / 100 ∧ f.forecast_price ≠ 2323 / 200 := by
  refine ⟨generalForecast scenBars ⟨4, 23/2⟩, rfl, ?_, ?_, ?_⟩ <;> rw [scenBars_eval]
  · decide
  · norm_num
  · norm_num

/-- C6 amended: on the scenario series `ma_short` over 5 closes is
`10.84` and the drift over the four returns is `527/14784 ≈ 0.0357`, but
`ma_long` (clamped to the same 5 closes) is also `10.84`, so the trend
signal is zero and the result is `trend_flag = FLAT`,
`forecast_return = 0`, `forecast_price = 11.5`. -/
theorem scenario_flat_result :
    computeForecast scenBars = .ok (generalForecast scenBars ⟨4, 23/2⟩) ∧
    (generalForecast scenBars ⟨4, 23/2⟩).details =
      some { ma_short := 271/25, ma_long := 271/25, drift := 527/14784,
             varq := 333721/1366041600, vol_n := 4 } ∧
    (generalForecast scenBars ⟨4, 23/2⟩).trend_flag = "FLAT" ∧
    (generalForecast scenBars ⟨4, 23/2⟩).forecast_return = 0 ∧
    (generalForecast scenBars ⟨4, 23/2⟩).forecast_price = 23 / 2 := by
  refine ⟨rfl, ?_, ?_, ?_, ?_⟩ <;> rw [scenBars_eval]

/-- Whether `upload_bhav_file` loads (upserts and counts) a given CSV
row: its code must be non-blank, resolve to a non-zero universe id, and
all five numeric fields must parse.  The branches mirror `bhavStep`. -/
def isLoadable (bmap : List (String × Nat)) (row : BhavRow) : Bool :=
  if pyStrip row.finInstrmId = "" then false
  else
    match lookupCode bmap (pyStrip row.finInstrmId) with
    | none => false
    | some uid =>
        if uid = 0 then false
        else
          match row.opn, row.hig, row.low, row.cls, row.vol with
          | .ok _, .ok _, .ok _, .ok _, .ok _ => true
          | _, _, _, _, _ => false

/-- Each processed row increments `records_total` by exactly one. -/
theorem bhavStep_total (bmap : List (String × Nat)) (tdate : Int) (acc : BhavAcc)
    (row : BhavRow) : (bhavStep bmap tdate acc row).total = acc.total + 1 := by
  unfold bhavStep
  dsimp only
  repeat' split
  all_goals rfl

/-- Each processed row increments `records_loaded` by one exactly when
it is loadable. -/
theorem bhavStep_loaded (bmap : List (String × Nat)) (tdate : Int) (acc : BhavAcc)
    (row : BhavRow) :
    (bhavStep bmap tdate acc row).loaded =
      acc.loaded + (if isLoadable bmap row then 1 else 0) := by
  obtain ⟨fid, op, hi, lo, cl, vo⟩ := row
  unfold bhavStep isLoadable
  dsimp only
  by_cases h0 : pyStrip fid = ""
  · simp [h0]
  · rw [if_neg h0, if_neg h0]
    cases hl : lookupCode bmap (pyStrip fid) with
    | none => simp
    | some uid =>
        dsimp only
        by_cases hu : uid = 0
        · simp [hu]
        · rw [if_neg hu, if_neg hu]
          rcases op with e1 | o1 <;> rcases hi with e2 | o2 <;> rcases lo with e3 | o3 <;>
            rcases cl with e4 | o4 <;> rcases vo with e5 | o5 <;> simp

/-- A non-loadable row leaves the pending table state untouched (no
price upsert): it is skipped or only logged. -/
theorem bhavStep_cur_of_not_loadable {bmap : List (String × Nat)} {row : BhavRow}
    (h : isLoadable bmap row = false) (tdate : Int) (acc : BhavAcc) :
    (bhavStep bmap tdate acc row).cur = acc.cur := by
  obtain ⟨fid, op, hi, lo, cl, vo⟩ := row
  unfold bhavStep
  unfold isLoadable at h
  dsimp only at h ⊢
  by_cases h0 : pyStrip fid = ""
  · simp [h0]
  · rw [if_neg h0] at h ⊢
    cases hl : lookupCode bmap (pyStrip fid) with
    | none => simp [hl]
    | some uid =>
        rw [hl] at h
        dsimp only at h ⊢
        by_cases hu : uid = 0
        · simp [hu]
        · rw [if_neg hu] at h ⊢
          rcases op with e1 | o1 <;> rcases hi with e2 | o2 <;> rcases lo with e3 | o3 <;>
            rcases cl with e4 | o4 <;> rcases vo with e5 | o5 <;> simp_all

/-- The row loop never touches the `bhav_upload` table. -/
theorem bhavStep_bhavUploads (bmap : List (String × Nat)) (tdate : Int) (acc : BhavAcc)
    (row : BhavRow) :
    (bhavStep bmap tdate acc row).cur.bhavUploads = acc.cur.bhavUploads := by
  unfold bhavStep
  dsimp only
  repeat' split
  all_goals rfl

/-- A stream of rows that all read successfully runs the loop to
completion, folding the per-row step. -/
theorem bhavLoop_map_ok (bmap : List (String × Nat)) (tdate : Int)
    (rows : List BhavRow) (acc : BhavAcc) :
    bhavLoop bmap tdate (rows.map Except.ok) acc =
      .ok (rows.foldl (bhavStep bmap tdate) acc) := by
  induction rows generalizing acc with
  | nil => rfl
  | cons r rest ih => simp [bhavLoop, ih]

/-- A reader fault after the rows of `pre` abandons the loop with the
counters accumulated over `pre`. -/
theorem bhavLoop_fault (bmap : List (String × Nat)) (tdate : Int)
    (pre : List BhavRow) (e : String) (rest : List (Except String BhavRow))
    (acc : BhavAcc) :
    bhavLoop bmap tdate (pre.map Except.ok ++ .error e :: rest) acc =
      .error (e, pre.foldl (bhavStep bmap tdate) acc) := by
  induction pre generalizing acc with
  | nil => rfl
  | cons r pre ih => simp [bhavLoop, ih]

/-- `records_total` after the loop counts exactly the rows read. -/
theorem bhavFold_total (bmap : List (String × Nat)) (tdate : Int)
    (rows : List BhavRow) (acc : BhavAcc) :
    (rows.foldl (bhavStep bmap tdate) acc).total = acc.total + rows.length := by
  induction rows generalizing acc with
  | nil => simp
  | cons r rest ih =>
      rw [List.foldl_cons, ih, bhavStep_total, List.length_cons]
      omega

/-- `records_loaded` after the loop counts exactly the loadable rows. -/
theorem bhavFold_loaded (bmap : List (String × Nat)) (tdate : Int)
    (rows : List BhavRow) (acc : BhavAcc) :
    (rows.foldl (bhavStep bmap tdate) acc).loaded =
      acc.loaded + rows.countP (fun r => isLoadable bmap r) := by
  induction rows generalizing acc with
  | nil => simp
  | cons r rest ih =>
      rw [List.foldl_cons, ih, bhavStep_loaded, List.countP_cons]
      by_cases h : isLoadable bmap r
      · simp [h]
        omega
      · simp [h]

/-- The loop leaves the `bhav_upload` table untouched. -/
theorem bhavFold_bhavUploads (bmap : List (String × Nat)) (tdate : Int)
    (rows : List BhavRow) (acc : BhavAcc) :
    ((rows.foldl (bhavStep bmap tdate) acc).cur).bhavUploads = acc.cur.bhavUploads := by
  induction rows generalizing acc with
  | nil => rfl
  | cons r rest ih => rw [List.foldl_cons, ih, bhavStep_bhavUploads]

/-- A file of rows none of which is loadable changes no table state. -/
theorem bhavFold_cur_of_none_loadable {bmap : List (String × Nat)}
    {rows : List BhavRow} (h : ∀ r ∈ rows, isLoadable bmap r = false)
    (tdate : Int) (acc : BhavAcc) :
    ((rows.foldl (bhavStep bmap tdate) acc).cur) = acc.cur := by
  induction rows generalizing acc with
  | nil => rfl
  | cons r rest ih =>
      rw [List.foldl_cons, ih (fun x hx => h x (List.mem_cons_of_mem r hx)),
         bhavStep_cur_of_not_loadable (h r (List.mem_cons_self r rest))]

/-- Success path of `upload_bhav_file`: the handler reports status
`SUCCESS` with `records_total` the number of rows in the file and
`records_loaded` the number of loadable rows, and passes exactly these
to the final `_update_bhav_upload_row` call. -/
theorem uploadBhavFile_allok_report (conn0 : Conn) (fileName : String) (tdate : Int)
    (bmap : List (String × Nat)) (rows : List BhavRow) :
    (uploadBhavFile conn0 fileName tdate (.ok bmap) (rows.map Except.ok)).2 =
      { status := "SUCCESS", total := rows.length,
        loaded := rows.countP (fun r => isLoadable bmap r), error_message := none } := by
  unfold uploadBhavFile
  dsimp only
  rw [bhavLoop_map_ok]
  dsimp only
  simp [bhavFold_total, bhavFold_loaded]

/-- Success path of `upload_bhav_file`, durable state: because the only
commit precedes the final status `UPDATE` and the connection is closed
without another commit, the durable `bhav_upload` table still holds the
batch row as inserted — status `PENDING`, no counts, no error. -/
theorem uploadBhavFile_allok_pending_row (conn0 : Conn) (fileName : String) (tdate : Int)
    (bmap : List (String × Nat)) (rows : List BhavRow) :
    (uploadBhavFile conn0 fileName tdate (.ok bmap) (rows.map Except.ok)).1.bhavUploads =
      conn0.current.bhavUploads ++
        [(freshId conn0.current.bhavUploads,
          { file_name := fileName, trade_date := tdate, status := "PENDING",
            records_total := none, records_loaded := none, error_message := none })] := by
  unfold uploadBhavFile
  dsimp only
  rw [bhavLoop_map_ok]
  dsimp only [closeConn, commitConn]
  rw [bhavFold_bhavUploads]

/-- Success path of `upload_bhav_file` on a file with no loadable row:
the durable price store is exactly the one the connection started with. -/
theorem uploadBhavFile_allok_prices_unchanged (conn0 : Conn) (fileName : String)
    (tdate : Int) (bmap : List (String × Nat)) {rows : List BhavRow}
    (h : ∀ r ∈ rows, isLoadable bmap r = false) :
    (uploadBhavFile conn0 fileName tdate (.ok bmap) (rows.map Except.ok)).1.prices =
      conn0.current.prices := by
  unfold uploadBhavFile
  dsimp only
  rw [bhavLoop_map_ok]
  dsimp only [closeConn, commitConn]
  rw [bhavFold_cur_of_none_loadable h]

/-- Adapter-level fault path of `upload_bhav_file` (reader fault after
the rows of `pre`): the `rollback` discards the pending price upserts
and the pending `PENDING` batch row itself; the subsequent `FAILED`
`UPDATE` matches no row and is never committed, so the durable database
state is exactly the committed state the handler started from, while
the handler still reports `FAILED` with the counters accumulated up to
the fault. -/
theorem uploadBhavFile_readerFault (conn0 : Conn) (fileName : String) (tdate : Int)
    (bmap : List (String × Nat)) (pre : List BhavRow) (e : String)
    (rest : List (Except String BhavRow)) :
    uploadBhavFile conn0 fileName tdate (.ok bmap) (pre.map Except.ok ++ .error e :: rest) =
      (conn0.committed,
       { status := "FAILED", total := pre.length,
         loaded := pre.countP (fun r => isLoadable bmap r), error_message := some e }) := by
  unfold uploadBhavFile
  dsimp only
  rw [bhavLoop_fault]
  dsimp only [closeConn, rollbackConn]
  simp [bhavFold_total, bhavFold_loaded]

/-- Adapter-level fault before the loop (the resolution mapping cannot
be loaded): same durable no-op, reported with zero counters. -/
theorem uploadBhavFile_mapFault (conn0 : Conn) (fileName : String) (tdate : Int)
    (e : String) (entries : List (Except String BhavRow)) :
    uploadBhavFile conn0 fileName tdate (.error e) entries =
      (conn0.committed,
       { status := "FAILED", total := 0, loaded := 0, error_message := some e }) :=
  rfl

/-- countP over a replicated list. -/
theorem countP_replicate (p : α → Bool) (n : Nat) (a : α) :
    (List.replicate n a).countP p = if p a then n else 0 := by
  induction n with
  | zero => simp
  | succ n ih =>
      rw [List.replicate_succ, List.countP_cons, ih]
      by_cases h : p a
      · simp [h]
      · simp [h]

/-- An empty database. -/
def emptyDB : DBState := { prices := [], bhavUploads := [], runs := [], results := [] }

/-- A database that already holds one committed price row. -/
def demoDB : DBState :=
  { prices := [((7, -1),
      { open_p := 9, high_p := 10, low_p := 8, close_p := 9, volume := 500, source := "YFINANCE" })],
    bhavUploads := [], runs := [], results := [] }

/-- A two-entry resolution mapping (`bse_code -> universe_id`). -/
def demoMap : List (String × Nat) := [("500325", 7), ("500820", 8)]

/-- A valid resolved CSV row. -/
def goodRow : BhavRow :=
  { finInstrmId := "500325", opn := .ok 10, hig := .ok 11, low := .ok 9,
    cls := .ok 10, vol := .ok 1000 }

/-- A second valid resolved CSV row, for another instrument. -/
def good2Row : BhavRow :=
  { finInstrmId := "500820", opn := .ok 21, hig := .ok 22, low := .ok 20,
    cls := .ok 21, vol := .ok 800 }

/-- A malformed CSV row: its open price does not parse. -/
def badRow : BhavRow :=
  { finInstrmId := "500820", opn := .error ("could not convert string to float"),
    hig := .ok 11, low := .ok 9, cls := .ok 10, vol := .ok 1000 }

/-- A CSV row whose code resolves to no tracked instrument. -/
def unresRow : BhavRow :=
  { finInstrmId := "599999", opn := .ok 10, hig := .ok 11, low := .ok 9,
    cls := .ok 10, vol := .ok 1000 }

theorem isLoadable_goodRow : isLoadable demoMap goodRow = true := by decide

theorem isLoadable_good2Row : isLoadable demoMap good2Row = true := by decide

theorem isLoadable_badRow : isLoadable demoMap badRow = false := by decide

theorem isLoadable_unresRow : isLoadable demoMap unresRow = false := by decide

/-- C8 (code-bug evidence): on a file of 100 valid resolved rows plus
one malformed row the handler computes `records_total = 101`,
`records_loaded = 100`, status `SUCCESS`, and passes exactly these
values to the `bhav_upload` status UPDATE — but the durable
`bhav_upload` row still reads `PENDING` with no counts, because that
UPDATE is issued after the only commit and the connection is closed
without committing it.  A single unresolvable row is counted in
`records_total` but not in `records_loaded` and produces no price
upsert. -/
theorem bhav_row_isolation_counts_but_update_lost :
    (uploadBhavFile (freshConn emptyDB) "bhav.csv" 0 (.ok demoMap)
        ((List.replicate 100 goodRow ++ [badRow]).map Except.ok)).2 =
      { status := "SUCCESS", total := 101, loaded := 100, error_message := none } ∧
    lookupId
      (uploadBhavFile (freshConn emptyDB) "bhav.csv" 0 (.ok demoMap)
        ((List.replicate 100 goodRow ++ [badRow]).map Except.ok)).1.bhavUploads 1 =
      some { file_name := "bhav.csv", trade_date := 0, status := "PENDING",
             records_total := none, records_loaded := none, error_message := none } ∧
    (uploadBhavFile (freshConn emptyDB) "u.csv" 0 (.ok demoMap) [.ok unresRow]).2 =
      { status := "SUCCESS", total := 1, loaded := 0, error_message := none } ∧
    (uploadBhavFile (freshConn emptyDB) "u.csv" 0 (.ok demoMap) [.ok unresRow]).1.prices = [] := by
  have hsingle : ([.ok unresRow] : List (Except String BhavRow)) = [unresRow].map Except.ok := rfl
  refine ⟨?_, ?_, ?_, ?_⟩
  · rw [uploadBhavFile_allok_report]
    simp [List.countP_append, countP_replicate, List.countP_cons,
          isLoadable_goodRow, isLoadable_badRow]
  · rw [uploadBhavFile_allok_pending_row]
    simp [freshConn, emptyDB, freshId, lookupId]
  · rw [hsingle, uploadBhavFile_allok_report]
    simp [List.countP_cons, isLoadable_unresRow]
  · rw [hsingle,
       uploadBhavFile_allok_prices_unchanged (freshConn emptyDB) "u.csv" 0 demoMap
         (by intro r hr; rw [List.mem_singleton] at hr; subst hr; exact isLoadable_unresRow)]
    rfl

/-- C10 (code-bug evidence): a reader fault after two loaded rows rolls
back the two pending price upserts — the durable price store is exactly
the pre-upload store, as the claim's first half says — but the rollback
also discards the PENDING `bhav_upload` insert, so the subsequent
`FAILED` UPDATE matches no row and is discarded unchanged at close:
contrary to the claim's second half, no UploadBatch row records the
failure; only the handler's report carries `FAILED`, the counts
accumulated up to the fault, and the error message. -/
theorem bhav_fault_atomic_but_no_failed_row :
    uploadBhavFile (freshConn demoDB) "bhav.csv" 0 (.ok demoMap)
        ([goodRow, good2Row].map Except.ok ++ .error ("utf-8 codec error") :: []) =
      (demoDB,
       { status := "FAILED", total := 2, loaded := 2,
         error_message := some ("utf-8 codec error") }) := by
  rw [uploadBhavFile_readerFault]
  simp [freshConn, List.countP_cons, isLoadable_goodRow, isLoadable_good2Row]

/-- Any member of a list is bounded by the folded maximum. -/
theorem le_foldr_max (a : Nat) (xs : List Nat) (h : a ∈ xs) :
    a ≤ xs.foldr max 0 := by
  induction xs with
  | nil => cases h
  | cons x xs ih =>
      rcases List.mem_cons.mp h with rfl | hx
      · exact le_max_left _ _
      · exact le_trans (ih hx) (le_max_right _ _)

/-- The AUTO_INCREMENT id is strictly larger than every existing id. -/
theorem freshId_not_mem (l : List (Nat × α)) : ∀ p ∈ l, p.1 ≠ freshId l := by
  intro p hp
  have : p.1 ≤ (l.map Prod.fst).foldr max 0 :=
    le_foldr_max _ _ (List.mem_map_of_mem Prod.fst hp)
  unfold freshId
  omega

/-- Updating the run just appended: existing rows (all with a different
id) are untouched, the appended row gets the new status and message. -/
theorem updateRunStatus_append (s : DBState) (l : List (Nat × ForecastRunRow))
    (rid : Nat) (row : ForecastRunRow) (st : String) (err : Option String)
    (hfresh : ∀ p ∈ l, p.1 ≠ rid)
    (hruns : s.runs = l ++ [(rid, row)]) :
    updateRunStatus s rid st err =
      { s with runs := l ++ [(rid, { row with status := st, error_message := err })] } := by
  unfold updateRunStatus
  rw [hruns, List.map_append]
  congr 1
  congr 1
  · conv_rhs => rw [show l = l.map id from (List.map_id l).symm]
    apply List.map_congr_left
    intro p hp
    rw [if_neg (hfresh p hp)]
    rfl
  · simp

/-- A prefix of fault-free instruments folds into result-row appends. -/
theorem forecastLoop_append_ok (rid : Nat) (pre rest : List UniverseInst)
    (cur : DBState) (hpre : ∀ i ∈ pre, (i.fetched).isOk = true) :
    forecastLoop rid (pre ++ rest) cur =
      forecastLoop rid rest { cur with results := cur.results ++ resultRowsOf rid pre } := by
  induction pre generalizing cur with
  | nil => simp [resultRowsOf]
  | cons i pre ih =>
      have hi := hpre i (List.mem_cons_self i pre)
      have htl : ∀ j ∈ pre, (j.fetched).isOk = true :=
        fun j hj => hpre j (List.mem_cons_of_mem i hj)
      rcases hf : i.fetched with e | prices
      · rw [hf] at hi
        simp [Except.isOk, Except.toBool] at hi
      · rw [List.cons_append]
        by_cases hp : prices.isEmpty
        · have hnil : prices = [] := by
            rwa [List.isEmpty_iff] at hp
          simp only [forecastLoop, hf, hp, if_true]
          rw [ih _ htl]
          have hrr : resultRowsOf rid (i :: pre) = resultRowsOf rid pre := by
            simp [resultRowsOf, hf, hnil]
          rw [hrr]
        · have hne : prices ≠ [] := by
            intro hnil
            rw [hnil] at hp
            simp at hp
          obtain ⟨f, hcf⟩ := computeForecast_ok_of_ne_nil hne
          simp only [forecastLoop, hf, hp]
          rw [if_neg Bool.false_ne_true]
          simp only [hcf]
          rw [ih _ htl]
          have hrr : resultRowsOf rid (i :: pre) =
              { run_id := rid, universe_id := i.id, forecast := f } :: resultRowsOf rid pre := by
            simp [resultRowsOf, hf, hne, hcf]
          rw [hrr]
          have harr : (cur.results ++ [{ run_id := rid, universe_id := i.id, forecast := f }]) ++
              resultRowsOf rid pre =
              cur.results ++ { run_id := rid, universe_id := i.id, forecast := f } ::
                resultRowsOf rid pre := by
            simp
          rw [harr]

/-- C9: if a storage fault occurs while processing an instrument
mid-loop, the run's `forecast_run` row ends `FAILED` with the captured
error text, no instrument after the fault is processed (the durable
results are exactly those of the instruments before the fault), and
every `forecast_result` row already written before the fault is
retained — the handler's `except` block commits them together with the
`FAILED` update, so the run is not atomic across instruments. -/
theorem run_failed_retains_prior_results (s0 : DBState) (desc : Option String)
    (pre : List UniverseInst) (fid : Nat) (e : String) (post : List UniverseInst)
    (hpre : ∀ i ∈ pre, (i.fetched).isOk = true) :
    runForecast (freshConn s0) desc (pre ++ ⟨fid, .error e⟩ :: post) =
      { s0 with
        runs := s0.runs ++
          [(freshId s0.runs,
            { description := desc, status := "FAILED", error_message := some e })],
        results := s0.results ++ resultRowsOf (freshId s0.runs) pre } := by
  unfold runForecast
  dsimp only [freshConn]
  rw [forecastLoop_append_ok _ _ _ _ hpre]
  dsimp only [forecastLoop]
  dsimp only [closeConn, commitConn]
  rw [updateRunStatus_append _ s0.runs (freshId s0.runs)
      { description := desc, status := "SUCCESS", error_message := none } "FAILED" (some e)
      (freshId_not_mem s0.runs) rfl]

/-- One-instrument prefix with a one-bar series. -/
def preW : List UniverseInst := [⟨1, .ok [⟨0, 100⟩]⟩]

/-- Instruments after the fault; they must not be processed. -/
def postW : List UniverseInst := [⟨3, .ok [⟨0, 50⟩]⟩]

/-- Witness for C9 on a concrete run faulting at its second instrument. -/
theorem run_failed_retains_prior_results_witness :
    (∀ i ∈ preW, (i.fetched).isOk = true) ∧
    runForecast (freshConn emptyDB) none (preW ++ ⟨2, .error ("storage fault")⟩ :: postW) =
      { emptyDB with
        runs := emptyDB.runs ++
          [(freshId emptyDB.runs,
            { description := none, status := "FAILED", error_message := some ("storage fault") })],
        results := emptyDB.results ++ resultRowsOf (freshId emptyDB.runs) preW } := by
  have hpre : ∀ i ∈ preW, (i.fetched).isOk = true := by
    intro i hi
    rw [preW, List.mem_singleton] at hi
    subst hi
    rfl
  exact ⟨hpre, run_failed_retains_prior_results emptyDB none preW 2 ("storage fault") postW hpre⟩
